import Mathlib

/-!
Shallow embedding of `wigner_bloch_fftw_1d.py` (class `WignerBlochFFTW1D`).

Python floats are modelled by exact rationals where the code does scalar
temperature arithmetic, and by real numbers where the code builds the
exponential kernels on the phase-space grid.  A grid of `n + 1` points is
indexed by `Fin (n + 1)` (the 2D numpy arrays are flattened; `min` is taken
over all entries, exactly as `ndarray.min()` does).  Exceptions raised by the
constructor are modelled by an `Except` result: an `Except.error` outcome
means the constructor aborted at that point and produced no object state.
-/

namespace FastWigner

/-- Python 2 `round` applied to a scalar: round half away from zero
(`round(0.5) == 1.0` in Python 2). -/
def pyRound (q : ℚ) : ℤ :=
  if 0 ≤ q then ⌊q + 1/2⌋ else ⌈q - 1/2⌉

/-- The exceptions the constructor `WignerBlochFFTW1D.__init__` can raise
before the parent class is initialised:
`missingKT` models the `AttributeError` of line 25 (no `kT` entry in kwargs),
`notImplemented` models the raise of line 45 (`kT <= 0`),
`zeroDivision` models the `ZeroDivisionError` of line 40 when the rounded
step count is zero (`1. / (self.kT * 0.0)`). -/
inductive CtorError where
  | missingKT
  | notImplemented
  | zeroDivision
  deriving DecidableEq

/-- Lines 28-42 of `WignerBlochFFTW1D.__init__`, for `kT > 0` and an already
resolved `dbeta0`: compute `num_beta_steps = 1 / (kT * dbeta0)`; if rounding
changes it, replace the count by its rounded value and recompute
`dbeta = 1 / (kT * num_beta_steps)` (a Python `ZeroDivisionError` when the
rounded count is `0`); finally `int(...)` the count, which is exact because
the count is integral on both paths. -/
def resolveSchedule (kT dbeta0 : ℚ) : Except CtorError (ℚ × ℤ) :=
  let raw := 1 / (kT * dbeta0)
  if (pyRound raw : ℚ) ≠ raw then
    if kT * (pyRound raw : ℚ) = 0 then
      Except.error CtorError.zeroDivision
    else
      Except.ok (1 / (kT * (pyRound raw : ℚ)), pyRound raw)
  else
    Except.ok (dbeta0, pyRound raw)

/-- Lines 22-45 of `WignerBlochFFTW1D.__init__`: look up `kT` in kwargs
(raising if absent), require `kT > 0` (raising otherwise), default `dbeta`
to `0.01` when kwargs has no `dbeta` entry, and resolve the
`(dbeta, num_beta_steps)` pair. -/
def constructSchedule (kT? dbeta? : Option ℚ) : Except CtorError (ℚ × ℤ) :=
  match kT? with
  | none => Except.error CtorError.missingKT
  | some kT =>
      if 0 < kT then
        resolveSchedule kT (dbeta?.getD (1/100))
      else
        Except.error CtorError.notImplemented

/-- The caller-supplied kwargs dictionary, with the three scalar entries the
constructor reads or writes (`kT`, `dbeta`, `dt`) made explicit and every
remaining entry collected in `rest` (of an arbitrary type `α`). -/
structure Kwargs (α : Type) where
  kT? : Option ℚ
  dbeta? : Option ℚ
  dt? : Option ℚ
  rest : α
  deriving DecidableEq

/-- Line 48: `kwargs.update(dbeta=self.dbeta, dt=self.dbeta)` — the caller's
dictionary is mutated in place, so the value produced here is both what the
parent constructor receives on line 51 and what the caller's dictionary holds
afterwards. -/
def updateKwargs {α : Type} (kw : Kwargs α) (db : ℚ) : Kwargs α :=
  { kw with dbeta? := some db, dt? := some db }

/-- The kwargs-facing slice of the constructor (lines 22-48): resolve the
temperature schedule from the dictionary, then perform the in-place
`kwargs.update`; an error means the constructor raised before reaching the
update. -/
def ctorKwargs {α : Type} (kw : Kwargs α) : Except CtorError (Kwargs α) :=
  (constructSchedule kw.kT? kw.dbeta?).map (fun p => updateKwargs kw p.1)

/-- A Hamiltonian term (`V` or `K`) as the constructor sees it: either a
callable of the coordinate alone, or one that also requires an explicit time
argument (in the source this is detected by the one-argument call raising
`TypeError`). -/
inductive EnergyFn where
  | timeIndep (f : ℝ → ℝ)
  | timeDep (f : ℝ → ℝ → ℝ)

/-- `ndarray.min()`: the minimum entry of an array over the (nonempty,
flattened) grid. -/
noncomputable def gridMin {n : ℕ} (f : Fin (n + 1) → ℝ) : ℝ :=
  Finset.univ.inf' ⟨0, Finset.mem_univ 0⟩ f

/-- The shifted potential-energy sum of line 66:
`V(X - 0.5 * Theta) + V(X + 0.5 * Theta)`. -/
noncomputable def shiftedV {n : ℕ} (f : ℝ → ℝ) (X Theta : Fin (n + 1) → ℝ) :
    Fin (n + 1) → ℝ :=
  fun i => f (X i - 0.5 * Theta i) + f (X i + 0.5 * Theta i)

/-- The shifted kinetic-energy sum of line 87:
`K(P + 0.5 * Lambda) + K(P - 0.5 * Lambda)`. -/
noncomputable def shiftedK {n : ℕ} (f : ℝ → ℝ) (P Lambda : Fin (n + 1) → ℝ) :
    Fin (n + 1) → ℝ :=
  fun i => f (P i + 0.5 * Lambda i) + f (P i - 0.5 * Lambda i)

/-- The raw potential kernel as it stands after line 76, i.e. before the
absorbing-boundary mask of line 79 is applied: the exponential of the
min-shifted energy sum scaled by `-dbeta * 0.5`. -/
noncomputable def rawExpV {n : ℕ} (dbeta : ℝ) (f : ℝ → ℝ)
    (X Theta : Fin (n + 1) → ℝ) : Fin (n + 1) → ℝ :=
  fun i =>
    Real.exp ((shiftedV f X Theta i - gridMin (shiftedV f X Theta)) * (-dbeta * 0.5))

/-- Lines 65-79 of `WignerBlochFFTW1D.__init__`: build `self._expV`.  The
energy sum is evaluated without a time argument when `V` allows it; when `V`
needs a time argument (the `TypeError` branch), a warning naming the current
time `t` is printed — recorded here as the `Option ℝ` component — and the sum
is evaluated at `t`.  Then, in source order: subtract the array minimum,
multiply by `-self.dbeta * 0.5`, exponentiate in place, and multiply by the
absorbing-boundary mask. -/
noncomputable def buildExpV {n : ℕ} (dbeta : ℝ) (V : EnergyFn)
    (X Theta abs_boundary : Fin (n + 1) → ℝ) (t : ℝ) :
    (Fin (n + 1) → ℝ) × Option ℝ :=
  let Sw : (Fin (n + 1) → ℝ) × Option ℝ :=
    match V with
    | EnergyFn.timeIndep f =>
        (fun i => f (X i - 0.5 * Theta i) + f (X i + 0.5 * Theta i), none)
    | EnergyFn.timeDep f =>
        (fun i => f (X i - 0.5 * Theta i) t + f (X i + 0.5 * Theta i) t, some t)
  let S1 : Fin (n + 1) → ℝ := fun i => Sw.1 i - gridMin Sw.1
  let S2 : Fin (n + 1) → ℝ := fun i => S1 i * (-dbeta * 0.5)
  let S3 : Fin (n + 1) → ℝ := fun i => Real.exp (S2 i)
  (fun i => S3 i * abs_boundary i, Sw.2)

/-- Lines 86-97 of `WignerBlochFFTW1D.__init__`: build `self._expK`, with the
same time-dependence fallback as for `_expV`; subtract the array minimum,
multiply by `-self.dbeta` (a full step, no `0.5`), exponentiate in place.  No
boundary mask is applied. -/
noncomputable def buildExpK {n : ℕ} (dbeta : ℝ) (K : EnergyFn)
    (P Lambda : Fin (n + 1) → ℝ) (t : ℝ) :
    (Fin (n + 1) → ℝ) × Option ℝ :=
  let Sw : (Fin (n + 1) → ℝ) × Option ℝ :=
    match K with
    | EnergyFn.timeIndep f =>
        (fun i => f (P i + 0.5 * Lambda i) + f (P i - 0.5 * Lambda i), none)
    | EnergyFn.timeDep f =>
        (fun i => f (P i + 0.5 * Lambda i) t + f (P i - 0.5 * Lambda i) t, some t)
  let S1 : Fin (n + 1) → ℝ := fun i => Sw.1 i - gridMin Sw.1
  let S2 : Fin (n + 1) → ℝ := fun i => S1 i * (-dbeta)
  let S3 : Fin (n + 1) → ℝ := fun i => Real.exp (S2 i)
  (S3, Sw.2)

/-- The object state a successful run of `WignerBlochFFTW1D.__init__` leaves
behind: the resolved schedule, the kwargs dictionary after the in-place
update (also what the parent constructor received), the Ehrenfest flag, the
two cached kernels, and for each kernel the time named by the
time-dependence warning when one was printed. -/
structure CtorResult (n : ℕ) (α : Type) where
  dbeta : ℚ
  num_beta_steps : ℤ
  kwargsAfter : Kwargs α
  isEhrenfest : Bool
  expV : Fin (n + 1) → ℝ
  vWarned : Option ℝ
  expK : Fin (n + 1) → ℝ
  kWarned : Option ℝ

/-- The whole constructor `WignerBlochFFTW1D.__init__` (lines 22-100).  The
grid arrays `X`, `Theta`, `P`, `Lambda`, the mask `abs_boundary` and the
current time `t` are the attributes the parent constructor installs from the
updated kwargs; `parentEhrenfest` is whatever value the parent initialisation
gave `self.isEhrenfest` — line 54 overwrites it with `False` unconditionally.
An `Except.error` outcome is an exception raised on lines 22-45: the
constructor aborts there and neither kernel is ever built. -/
noncomputable def construct {n : ℕ} {α : Type} (kw : Kwargs α) (V K : EnergyFn)
    (X Theta P Lambda abs_boundary : Fin (n + 1) → ℝ) (t : ℝ)
    (_parentEhrenfest : Bool) : Except CtorError (CtorResult n α) :=
  match constructSchedule kw.kT? kw.dbeta? with
  | Except.error e => Except.error e
  | Except.ok (db, m) =>
      let kwAfter := updateKwargs kw db
      let ev := buildExpV (db : ℝ) V X Theta abs_boundary t
      let ek := buildExpK (db : ℝ) K P Lambda t
      Except.ok
        { dbeta := db
          num_beta_steps := m
          kwargsAfter := kwAfter
          isEhrenfest := false
          expV := ev.1
          vWarned := ev.2
          expK := ek.1
          kWarned := ek.2 }

/-- The slice of the parent propagator's state that `get_gibbs_state`
touches: the current Wigner-function array and the Ehrenfest flag. -/
structure PropState (n : ℕ) where
  wigner : Fin (n + 1) → ℝ
  isEhrenfest : Bool

/-- Modelled from the spec: `WignerMoyalFTTW1D.set_wignerfunction` is not
under `src/`; per the spec it takes a generator function of `(x, p)`,
evaluates it on the phase-space grid and replaces the internal distribution
with the result, leaving the rest of the state alone. -/
def set_wignerfunction {n : ℕ} (X P : Fin (n + 1) → ℝ) (s : PropState n)
    (g : ℝ → ℝ → ℝ) : PropState n :=
  { s with wigner := fun i => g (X i) (P i) }

/-- Modelled from the spec: `WignerMoyalFTTW1D.propagate` is not under
`src/`; per the spec it advances the internal distribution by `N` discrete
operator-split steps (each step `step` consuming the cached kernels), mutates
the internal state `N` times and returns the final distribution array. -/
def propagate {n : ℕ} (step : (Fin (n + 1) → ℝ) → (Fin (n + 1) → ℝ)) (N : ℕ)
    (s : PropState n) : (Fin (n + 1) → ℝ) × PropState n :=
  (step^[N] s.wigner, { s with wigner := step^[N] s.wigner })

/-- Lines 102-109, `WignerBlochFFTW1D.get_gibbs_state`:
`self.set_wignerfunction(lambda _, x, p: 0*x + 0*p + 1.)` followed by
`return self.propagate(self.num_beta_steps)`. -/
noncomputable def get_gibbs_state {n : ℕ} (X P : Fin (n + 1) → ℝ)
    (step : (Fin (n + 1) → ℝ) → (Fin (n + 1) → ℝ)) (num_beta_steps : ℕ)
    (s : PropState n) : (Fin (n + 1) → ℝ) × PropState n :=
  propagate step num_beta_steps
    (set_wignerfunction X P s (fun x p => 0 * x + 0 * p + 1))

end FastWigner

namespace FastWigner

lemma gridMin_le {n : ℕ} (f : Fin (n + 1) → ℝ) (i : Fin (n + 1)) :
    gridMin f ≤ f i :=
  Finset.inf'_le f (Finset.mem_univ i)

lemma exists_gridMin_eq {n : ℕ} (f : Fin (n + 1) → ℝ) :
    ∃ i, gridMin f = f i := by
  obtain ⟨i, -, h⟩ := Finset.exists_mem_eq_inf' (⟨0, Finset.mem_univ 0⟩ :
    (Finset.univ : Finset (Fin (n + 1))).Nonempty) f
  exact ⟨i, h⟩

/-- Claim C1, counterexample: at `kT = 300` with `dbeta` omitted (so the
default `0.01` is used), the raw step count is `1/3`, which rounds to `0`;
the recomputation `1 / (kT * 0)` then raises `ZeroDivisionError`, so the
constructor resolves no `(dbeta, num_beta_steps)` pair at all, contradicting
the claim that it does so for every `kT > 0`. -/
theorem C1_counterexample :
    (0 : ℚ) < 300 ∧
      constructSchedule (some 300) none = Except.error CtorError.zeroDivision := by
  constructor
  · norm_num
  · norm_num [constructSchedule, resolveSchedule, pyRound]

/-- Claim C1 (amended): for every `kT > 0` and every initial `dbeta > 0`
(defaulting to `0.01` when omitted), provided the raw step count
`1/(kT*dbeta)` is at least `1/2` (otherwise it rounds to `0` and the
constructor raises `ZeroDivisionError`), the constructor resolves a pair
`(dbeta, num_beta_steps)` with `num_beta_steps * dbeta * kT = 1` and
`num_beta_steps ≥ 1`; when `1/(kT*dbeta)` is not already an integer, `dbeta`
is recomputed as `1/(kT * round (1/(kT*dbeta)))` rather than the step count
being truncated. -/
theorem C1_schedule_resolution (kT : ℚ) (dbeta? : Option ℚ)
    (hkT : 0 < kT) (hdb : 0 < dbeta?.getD (1/100))
    (hhalf : 1/2 ≤ 1 / (kT * dbeta?.getD (1/100))) :
    ∃ db m, constructSchedule (some kT) dbeta? = Except.ok (db, m) ∧
      1 ≤ m ∧ (m : ℚ) * db * kT = 1 ∧ 0 < db ∧
      ((pyRound (1 / (kT * dbeta?.getD (1/100))) : ℚ) ≠ 1 / (kT * dbeta?.getD (1/100)) →
        db = 1 / (kT * (pyRound (1 / (kT * dbeta?.getD (1/100))) : ℚ))) := by
  set d : ℚ := dbeta?.getD (1/100) with hd
  set raw : ℚ := 1 / (kT * d) with hraw
  have hrawpos : 0 < raw := by
    rw [hraw]
    positivity
  simp only [constructSchedule, if_pos hkT, resolveSchedule]
  by_cases hc : (pyRound raw : ℚ) ≠ raw
  · have hm1 : 1 ≤ pyRound raw := by
      rw [pyRound, if_pos hrawpos.le]
      have h1 : (1 : ℚ) ≤ raw + 1/2 := by linarith
      exact Int.le_floor.mpr (by exact_mod_cast h1)
    have hmpos : (0 : ℚ) < (pyRound raw : ℚ) := by exact_mod_cast hm1
    have hne : ¬ kT * (pyRound raw : ℚ) = 0 := by positivity
    rw [if_pos hc, if_neg hne]
    refine ⟨1 / (kT * (pyRound raw : ℚ)), pyRound raw, rfl, hm1, ?_, by positivity,
      fun _ => rfl⟩
    field_simp
    ring
  · push_neg at hc
    rw [if_neg (not_not.mpr hc)]
    have hm0 : (0 : ℚ) < (pyRound raw : ℚ) := by rw [hc]; exact hrawpos
    have hm0' : (0 : ℤ) < pyRound raw := by exact_mod_cast hm0
    have hm1 : 1 ≤ pyRound raw := hm0'
    refine ⟨d, pyRound raw, rfl, hm1, ?_, hdb, fun h => absurd hc h⟩
    rw [hc, hraw]
    field_simp
    ring

/-- Claim C1, witness of the amended theorem at `kT = 3`, `dbeta = 1/100`. -/
theorem C1_schedule_resolution_witness :
    (0 : ℚ) < 3 ∧ (0 : ℚ) < (some (1/100) : Option ℚ).getD (1/100) ∧
      (1/2 : ℚ) ≤ 1 / (3 * (some (1/100) : Option ℚ).getD (1/100)) ∧
      (∃ db m, constructSchedule (some 3) (some (1/100)) = Except.ok (db, m) ∧
        1 ≤ m ∧ (m : ℚ) * db * 3 = 1 ∧ 0 < db ∧
        ((pyRound (1 / (3 * (some (1/100) : Option ℚ).getD (1/100))) : ℚ)
            ≠ 1 / (3 * (some (1/100) : Option ℚ).getD (1/100)) →
          db = 1 / (3 * (pyRound (1 / (3 * (some (1/100) : Option ℚ).getD (1/100))) : ℚ)))) :=
  ⟨by norm_num, by norm_num, by norm_num,
    C1_schedule_resolution 3 (some (1/100)) (by norm_num) (by norm_num) (by norm_num)⟩

end FastWigner

namespace FastWigner

/-- Claim C2: the cached potential kernel is exactly
`exp (-0.5 * dbeta * (S_V - min S_V))` times the absorbing-boundary mask,
where `S_V = V(X - 0.5*Theta) + V(X + 0.5*Theta)`, and the cached kinetic
kernel is exactly `exp (-dbeta * (S_K - min S_K))` with
`S_K = K(P + 0.5*Lambda) + K(P - 0.5*Lambda)` and no mask: the exponent
coefficient is `1/2` for the potential kernel and `1` for the kinetic one. -/
theorem C2_kernel_formulas {n : ℕ} (dbeta : ℝ) (Vf Kf : ℝ → ℝ)
    (X Theta P Lambda abs_boundary : Fin (n + 1) → ℝ) (t : ℝ) :
    (buildExpV dbeta (EnergyFn.timeIndep Vf) X Theta abs_boundary t).1
      = (fun i => Real.exp (-(0.5) * dbeta *
          (shiftedV Vf X Theta i - gridMin (shiftedV Vf X Theta))) * abs_boundary i)
    ∧ (buildExpK dbeta (EnergyFn.timeIndep Kf) P Lambda t).1
      = (fun i => Real.exp (-dbeta *
          (shiftedK Kf P Lambda i - gridMin (shiftedK Kf P Lambda)))) := by
  constructor
  · funext i
    show Real.exp ((shiftedV Vf X Theta i - gridMin (shiftedV Vf X Theta))
        * (-dbeta * 0.5)) * abs_boundary i = _
    congr 2
    ring
  · funext i
    show Real.exp ((shiftedK Kf P Lambda i - gridMin (shiftedK Kf P Lambda))
        * (-dbeta)) = _
    congr 1
    ring

/-- Claim C3: with a nonnegative `dbeta`, every entry of the raw
(pre-boundary-mask) potential kernel and of the kinetic kernel lies in
`(0, 1]`, each kernel attains the value `1` at a grid point where the shifted
energy sum is minimal, and the cached potential kernel is the raw kernel
times the absorbing-boundary mask. -/
theorem C3_kernel_range {n : ℕ} (dbeta : ℝ) (Vf Kf : ℝ → ℝ)
    (X Theta P Lambda abs_boundary : Fin (n + 1) → ℝ) (t : ℝ) (hdb : 0 ≤ dbeta) :
    (∀ i, 0 < rawExpV dbeta Vf X Theta i ∧ rawExpV dbeta Vf X Theta i ≤ 1)
    ∧ (∃ i, shiftedV Vf X Theta i = gridMin (shiftedV Vf X Theta)
        ∧ rawExpV dbeta Vf X Theta i = 1)
    ∧ (buildExpV dbeta (EnergyFn.timeIndep Vf) X Theta abs_boundary t).1
        = (fun i => rawExpV dbeta Vf X Theta i * abs_boundary i)
    ∧ (∀ i, 0 < (buildExpK dbeta (EnergyFn.timeIndep Kf) P Lambda t).1 i
        ∧ (buildExpK dbeta (EnergyFn.timeIndep Kf) P Lambda t).1 i ≤ 1)
    ∧ (∃ i, shiftedK Kf P Lambda i = gridMin (shiftedK Kf P Lambda)
        ∧ (buildExpK dbeta (EnergyFn.timeIndep Kf) P Lambda t).1 i = 1) := by
  refine ⟨fun i => ⟨Real.exp_pos _, ?_⟩, ?_, rfl, fun i => ⟨Real.exp_pos _, ?_⟩, ?_⟩
  · have h1 : gridMin (shiftedV Vf X Theta) ≤ shiftedV Vf X Theta i := gridMin_le _ i
    have h2 : (shiftedV Vf X Theta i - gridMin (shiftedV Vf X Theta))
        * (-dbeta * 0.5) ≤ 0 :=
      mul_nonpos_of_nonneg_of_nonpos (by linarith) (by linarith)
    calc Real.exp _ ≤ Real.exp 0 := Real.exp_le_exp.mpr h2
    _ = 1 := Real.exp_zero
  · obtain ⟨i, hi⟩ := exists_gridMin_eq (shiftedV Vf X Theta)
    refine ⟨i, hi.symm, ?_⟩
    have hz : shiftedV Vf X Theta i - gridMin (shiftedV Vf X Theta) = 0 := by
      rw [hi]
      ring
    rw [rawExpV, hz, zero_mul, Real.exp_zero]
  · have h1 : gridMin (shiftedK Kf P Lambda) ≤ shiftedK Kf P Lambda i := gridMin_le _ i
    have h2 : (shiftedK Kf P Lambda i - gridMin (shiftedK Kf P Lambda))
        * (-dbeta) ≤ 0 :=
      mul_nonpos_of_nonneg_of_nonpos (by linarith) (by linarith)
    calc Real.exp _ ≤ Real.exp 0 := Real.exp_le_exp.mpr h2
    _ = 1 := Real.exp_zero
  · obtain ⟨i, hi⟩ := exists_gridMin_eq (shiftedK Kf P Lambda)
    refine ⟨i, hi.symm, ?_⟩
    have hz : shiftedK Kf P Lambda i - gridMin (shiftedK Kf P Lambda) = 0 := by
      rw [hi]
      ring
    show Real.exp ((shiftedK Kf P Lambda i - gridMin (shiftedK Kf P Lambda))
        * (-dbeta)) = 1
    rw [hz, zero_mul, Real.exp_zero]

/-- Claim C3, witness on the one-point grid with `V = K = id`, all
coordinates `0` and `dbeta = 1`. -/
theorem C3_kernel_range_witness :
    (0 : ℝ) ≤ 1 ∧
    ((∀ i, 0 < rawExpV 1 (fun x => x) (fun _ : Fin 1 => 0) (fun _ => 0) i
        ∧ rawExpV 1 (fun x => x) (fun _ : Fin 1 => 0) (fun _ => 0) i ≤ 1)
    ∧ (∃ i, shiftedV (fun x => x) (fun _ : Fin 1 => 0) (fun _ => 0) i
          = gridMin (shiftedV (fun x => x) (fun _ : Fin 1 => 0) (fun _ => 0))
        ∧ rawExpV 1 (fun x => x) (fun _ : Fin 1 => 0) (fun _ => 0) i = 1)
    ∧ (buildExpV 1 (EnergyFn.timeIndep (fun x => x)) (fun _ : Fin 1 => 0)
          (fun _ => 0) (fun _ => 1) 0).1
        = (fun i => rawExpV 1 (fun x => x) (fun _ : Fin 1 => 0) (fun _ => 0) i * 1)
    ∧ (∀ i, 0 < (buildExpK 1 (EnergyFn.timeIndep (fun p => p)) (fun _ : Fin 1 => 0)
          (fun _ => 0) 0).1 i
        ∧ (buildExpK 1 (EnergyFn.timeIndep (fun p => p)) (fun _ : Fin 1 => 0)
          (fun _ => 0) 0).1 i ≤ 1)
    ∧ (∃ i, shiftedK (fun p => p) (fun _ : Fin 1 => 0) (fun _ => 0) i
          = gridMin (shiftedK (fun p => p) (fun _ : Fin 1 => 0) (fun _ => 0))
        ∧ (buildExpK 1 (EnergyFn.timeIndep (fun p => p)) (fun _ : Fin 1 => 0)
          (fun _ => 0) 0).1 i = 1)) :=
  ⟨by norm_num,
    C3_kernel_range 1 (fun x => x) (fun p => p) (fun _ : Fin 1 => 0) (fun _ => 0)
      (fun _ => 0) (fun _ => 0) (fun _ => 1) 0 (by norm_num)⟩

/-- Claim C4: `get_gibbs_state` first replaces the Wigner function by the
constant `1` array, then runs the external propagation for exactly
`num_beta_steps` steps, returns the resulting array, and leaves that same
array stored as the object's current Wigner-function state. -/
theorem C4_get_gibbs_state {n : ℕ} (X P : Fin (n + 1) → ℝ)
    (step : (Fin (n + 1) → ℝ) → (Fin (n + 1) → ℝ)) (N : ℕ) (s : PropState n) :
    (set_wignerfunction X P s (fun x p => 0 * x + 0 * p + 1)).wigner = (fun _ => 1)
    ∧ (get_gibbs_state X P step N s).1 = step^[N] (fun _ => 1)
    ∧ (get_gibbs_state X P step N s).2.wigner = (get_gibbs_state X P step N s).1 := by
  have h1 : (fun i : Fin (n + 1) => 0 * X i + 0 * P i + 1) = (fun _ => (1 : ℝ)) := by
    funext i
    ring
  refine ⟨?_, ?_, rfl⟩
  · show (fun i : Fin (n + 1) => 0 * X i + 0 * P i + 1) = (fun _ => (1 : ℝ))
    exact h1
  · show step^[N] (fun i : Fin (n + 1) => 0 * X i + 0 * P i + 1) = step^[N] (fun _ => 1)
    rw [h1]

end FastWigner

namespace FastWigner

/-- Claim C5: for every `kT ≤ 0` supplied at construction, the constructor
raises the unsupported-mode error of line 45 and aborts: no fallback is
taken and neither `_expV` nor `_expK` is ever built (the error outcome
carries no kernel state). -/
theorem C5_kT_nonpositive {n : ℕ} {α : Type} (kw : Kwargs α) (V K : EnergyFn)
    (X Theta P Lambda abs_boundary : Fin (n + 1) → ℝ) (t : ℝ) (pE : Bool)
    (kT : ℚ) (hkT : kw.kT? = some kT) (h : kT ≤ 0) :
    construct kw V K X Theta P Lambda abs_boundary t pE
      = Except.error CtorError.notImplemented := by
  have hs : constructSchedule kw.kT? kw.dbeta? = Except.error CtorError.notImplemented := by
    rw [hkT]
    simp only [constructSchedule]
    rw [if_neg (not_lt.mpr h)]
  unfold construct
  rw [hs]

/-- Claim C5, witness at `kT = 0` on the one-point grid. -/
theorem C5_kT_nonpositive_witness :
    construct (Kwargs.mk (some 0) none none ()) (EnergyFn.timeIndep (fun x => x))
      (EnergyFn.timeIndep (fun p => p)) (fun _ : Fin 1 => 0) (fun _ => 0)
      (fun _ => 0) (fun _ => 0) (fun _ => 1) 0 false
      = Except.error CtorError.notImplemented :=
  C5_kT_nonpositive (Kwargs.mk (some 0) none none ())
    (EnergyFn.timeIndep (fun x => x)) (EnergyFn.timeIndep (fun p => p))
    (fun _ : Fin 1 => 0) (fun _ => 0) (fun _ => 0) (fun _ => 0) (fun _ => 1) 0
    false 0 rfl le_rfl

/-- Claim C6: constructing without a `kT` entry in kwargs raises the
configuration error of line 25, before any kernel work: the error outcome
carries no kernel state and no kwargs update has happened. -/
theorem C6_missing_kT {n : ℕ} {α : Type} (kw : Kwargs α) (V K : EnergyFn)
    (X Theta P Lambda abs_boundary : Fin (n + 1) → ℝ) (t : ℝ) (pE : Bool)
    (hkT : kw.kT? = none) :
    construct kw V K X Theta P Lambda abs_boundary t pE
      = Except.error CtorError.missingKT
    ∧ ctorKwargs kw = Except.error CtorError.missingKT := by
  have hs : constructSchedule kw.kT? kw.dbeta? = Except.error CtorError.missingKT := by
    rw [hkT]
    rfl
  constructor
  · unfold construct
    rw [hs]
  · unfold ctorKwargs
    rw [hs]
    rfl

/-- Claim C6, witness: kwargs with no `kT` entry on the one-point grid. -/
theorem C6_missing_kT_witness :
    construct (Kwargs.mk none (some (1/100)) (some (1/100)) ())
      (EnergyFn.timeIndep (fun x => x)) (EnergyFn.timeIndep (fun p => p))
      (fun _ : Fin 1 => 0) (fun _ => 0) (fun _ => 0) (fun _ => 0) (fun _ => 1) 0 false
      = Except.error CtorError.missingKT
    ∧ ctorKwargs (Kwargs.mk none (some (1/100)) (some (1/100)) ())
      = Except.error CtorError.missingKT :=
  C6_missing_kT (Kwargs.mk none (some (1/100)) (some (1/100)) ())
    (EnergyFn.timeIndep (fun x => x)) (EnergyFn.timeIndep (fun p => p))
    (fun _ : Fin 1 => 0) (fun _ => 0) (fun _ => 0) (fun _ => 0) (fun _ => 1) 0
    false rfl

/-- Claim C7: when `V` and `K` require an explicit time argument, the
constructor still completes (given the schedule resolves): each kernel is the
one obtained by evaluating the energy at the object's current time `t`
(identical to the time-independent kernel of the frozen-at-`t` callables),
and for each a non-fatal time-dependence diagnostic naming `t` is emitted. -/
theorem C7_time_dependent_fallback {n : ℕ} {α : Type} (kw : Kwargs α)
    (f g : ℝ → ℝ → ℝ) (X Theta P Lambda abs_boundary : Fin (n + 1) → ℝ) (t : ℝ)
    (pE : Bool) (db : ℚ) (m : ℤ)
    (hsch : constructSchedule kw.kT? kw.dbeta? = Except.ok (db, m)) :
    ∃ r, construct kw (EnergyFn.timeDep f) (EnergyFn.timeDep g)
        X Theta P Lambda abs_boundary t pE = Except.ok r
      ∧ r.vWarned = some t ∧ r.kWarned = some t
      ∧ r.expV = (buildExpV (db : ℝ) (EnergyFn.timeIndep (fun x => f x t))
          X Theta abs_boundary t).1
      ∧ r.expK = (buildExpK (db : ℝ) (EnergyFn.timeIndep (fun p => g p t))
          P Lambda t).1 := by
  unfold construct
  rw [hsch]
  exact ⟨_, rfl, rfl, rfl, rfl, rfl⟩

/-- Claim C7, witness: time-dependent `V` and `K` with `kT = 1`, `dbeta = 1`
on the one-point grid; construction completes and both warnings name `t = 0`. -/
theorem C7_time_dependent_fallback_witness :
    ∃ r, construct (Kwargs.mk (some 1) (some 1) none ())
        (EnergyFn.timeDep (fun x _ => x)) (EnergyFn.timeDep (fun p _ => p))
        (fun _ : Fin 1 => 0) (fun _ => 0) (fun _ => 0) (fun _ => 0) (fun _ => 1)
        0 false = Except.ok r
      ∧ r.vWarned = some 0 ∧ r.kWarned = some 0
      ∧ r.expV = (buildExpV ((1 : ℚ) : ℝ) (EnergyFn.timeIndep (fun x => (fun x _ => x) x 0))
          (fun _ : Fin 1 => 0) (fun _ => 0) (fun _ => 1) 0).1
      ∧ r.expK = (buildExpK ((1 : ℚ) : ℝ) (EnergyFn.timeIndep (fun p => (fun p _ => p) p 0))
          (fun _ : Fin 1 => 0) (fun _ => 0) 0).1 :=
  C7_time_dependent_fallback (Kwargs.mk (some 1) (some 1) none ())
    (fun x _ => x) (fun p _ => p) (fun _ : Fin 1 => 0) (fun _ => 0) (fun _ => 0)
    (fun _ => 0) (fun _ => 1) 0 false 1 1
    (by norm_num [constructSchedule, resolveSchedule, pyRound])

/-- Claim C8: whatever Ehrenfest flag value the parent initialisation left,
a successful construction stores `isEhrenfest = false` (line 54), and the
Gibbs projection (`get_gibbs_state`) never changes the flag, so it stays
disabled throughout the imaginary-time propagation. -/
theorem C8_ehrenfest_disabled {n : ℕ} {α : Type} (kw : Kwargs α) (V K : EnergyFn)
    (X Theta P Lambda abs_boundary : Fin (n + 1) → ℝ) (t : ℝ) (pE : Bool)
    (db : ℚ) (m : ℤ)
    (hsch : constructSchedule kw.kT? kw.dbeta? = Except.ok (db, m)) :
    (∃ r, construct kw V K X Theta P Lambda abs_boundary t pE = Except.ok r
        ∧ r.isEhrenfest = false)
    ∧ ∀ (step : (Fin (n + 1) → ℝ) → (Fin (n + 1) → ℝ)) (N : ℕ) (s : PropState n),
        (get_gibbs_state X P step N s).2.isEhrenfest = s.isEhrenfest := by
  constructor
  · unfold construct
    rw [hsch]
    exact ⟨_, rfl, rfl⟩
  · intro step N s
    rfl

/-- Claim C8, witness: `kT = 1`, `dbeta = 1`, parent flag `true`, one-point
grid. -/
theorem C8_ehrenfest_disabled_witness :
    (∃ r, construct (Kwargs.mk (some 1) (some 1) none ())
        (EnergyFn.timeIndep (fun x => x)) (EnergyFn.timeIndep (fun p => p))
        (fun _ : Fin 1 => 0) (fun _ => 0) (fun _ => 0) (fun _ => 0) (fun _ => 1)
        0 true = Except.ok r ∧ r.isEhrenfest = false)
    ∧ ∀ (step : (Fin 1 → ℝ) → (Fin 1 → ℝ)) (N : ℕ) (s : PropState 0),
        (get_gibbs_state (fun _ : Fin 1 => 0) (fun _ => 0) step N s).2.isEhrenfest
          = s.isEhrenfest :=
  C8_ehrenfest_disabled (Kwargs.mk (some 1) (some 1) none ())
    (EnergyFn.timeIndep (fun x => x)) (EnergyFn.timeIndep (fun p => p))
    (fun _ : Fin 1 => 0) (fun _ => 0) (fun _ => 0) (fun _ => 0) (fun _ => 1) 0
    true 1 1 (by norm_num [constructSchedule, resolveSchedule, pyRound])

/-- Claim C9: kernel construction is deterministic — two constructions from
inputs that agree componentwise (same `dbeta`, callables, grid arrays, mask
and time) produce identical `potential_kernel` and `kinetic_kernel` arrays. -/
theorem C9_kernel_determinism {n : ℕ} (db1 db2 : ℝ) (V1 V2 K1 K2 : EnergyFn)
    (X1 X2 Theta1 Theta2 P1 P2 Lambda1 Lambda2 b1 b2 : Fin (n + 1) → ℝ)
    (t1 t2 : ℝ)
    (h : db1 = db2 ∧ V1 = V2 ∧ K1 = K2 ∧ X1 = X2 ∧ Theta1 = Theta2 ∧ P1 = P2
      ∧ Lambda1 = Lambda2 ∧ b1 = b2 ∧ t1 = t2) :
    buildExpV db1 V1 X1 Theta1 b1 t1 = buildExpV db2 V2 X2 Theta2 b2 t2
    ∧ buildExpK db1 K1 P1 Lambda1 t1 = buildExpK db2 K2 P2 Lambda2 t2 := by
  obtain ⟨h1, h2, h3, h4, h5, h6, h7, h8, h9⟩ := h
  subst h1 h2 h3 h4 h5 h6 h7 h8 h9
  exact ⟨rfl, rfl⟩

/-- Claim C9, witness on the one-point grid with both input tuples written
out identically. -/
theorem C9_kernel_determinism_witness :
    buildExpV 1 (EnergyFn.timeIndep (fun x => x)) (fun _ : Fin 1 => 0)
        (fun _ => 0) (fun _ => 1) 0
      = buildExpV 1 (EnergyFn.timeIndep (fun x => x)) (fun _ : Fin 1 => 0)
        (fun _ => 0) (fun _ => 1) 0
    ∧ buildExpK 1 (EnergyFn.timeIndep (fun p => p)) (fun _ : Fin 1 => 0)
        (fun _ => 0) 0
      = buildExpK 1 (EnergyFn.timeIndep (fun p => p)) (fun _ : Fin 1 => 0)
        (fun _ => 0) 0 :=
  C9_kernel_determinism 1 1 (EnergyFn.timeIndep (fun x => x))
    (EnergyFn.timeIndep (fun x => x)) (EnergyFn.timeIndep (fun p => p))
    (EnergyFn.timeIndep (fun p => p)) (fun _ : Fin 1 => 0) (fun _ => 0)
    (fun _ => 0) (fun _ => 0) (fun _ => 0) (fun _ => 0) (fun _ => 0) (fun _ => 0)
    (fun _ => 1) (fun _ => 1) 0 0
    ⟨rfl, rfl, rfl, rfl, rfl, rfl, rfl, rfl, rfl⟩

/-- Claim C10, counterexample: with `kT = 3` and caller-supplied
`dbeta = 1/100`, the raw step count `100/3` is not an integer, so `dbeta` is
adjusted to `1/99` and `kwargs.update` overwrites the caller's `dbeta` entry
with `1/99 ≠ 1/100`: an entry other than `dt` does not pass through
unchanged. -/
theorem C10_counterexample :
    ctorKwargs (Kwargs.mk (some 3) (some (1/100)) (some (5/100)) ())
      = Except.ok (Kwargs.mk (some 3) (some (1/99)) (some (1/99)) ())
    ∧ some (1/99 : ℚ) ≠ some (1/100 : ℚ) := by
  constructor
  · norm_num [ctorKwargs, constructSchedule, resolveSchedule, pyRound,
      updateKwargs, Except.map]
  · simp only [ne_eq, Option.some.injEq]
    norm_num

/-- Claim C10 (amended): whenever the schedule resolves, the constructor
mutates the caller's kwargs dictionary in place before delegating to the
parent constructor, overwriting both `dt` and `dbeta` with the resolved
`dbeta` (so a caller-supplied `dt` is silently overridden, and a
caller-supplied `dbeta` is replaced by its adjusted value); every entry other
than `dt` and `dbeta` (the `kT` entry and all remaining configuration) passes
through unchanged, and the mutated dictionary is exactly what the parent
constructor receives. -/
theorem C10_kwargs_update {n : ℕ} {α : Type} (kw : Kwargs α) (V K : EnergyFn)
    (X Theta P Lambda abs_boundary : Fin (n + 1) → ℝ) (t : ℝ) (pE : Bool)
    (db : ℚ) (m : ℤ)
    (hsch : constructSchedule kw.kT? kw.dbeta? = Except.ok (db, m)) :
    ctorKwargs kw = Except.ok (updateKwargs kw db)
    ∧ (∃ r, construct kw V K X Theta P Lambda abs_boundary t pE = Except.ok r
        ∧ r.kwargsAfter = updateKwargs kw db)
    ∧ (updateKwargs kw db).dt? = some db
    ∧ (updateKwargs kw db).dbeta? = some db
    ∧ (updateKwargs kw db).kT? = kw.kT?
    ∧ (updateKwargs kw db).rest = kw.rest := by
  refine ⟨?_, ?_, rfl, rfl, rfl, rfl⟩
  · unfold ctorKwargs
    rw [hsch]
    rfl
  · unfold construct
    rw [hsch]
    exact ⟨_, rfl, rfl⟩

/-- Claim C10, witness of the amended theorem at `kT = 2`, `dbeta = 1/2`
(schedule already exact), caller-supplied `dt = 7`. -/
theorem C10_kwargs_update_witness :
    ctorKwargs (Kwargs.mk (some 2) (some (1/2)) (some 7) ())
      = Except.ok (updateKwargs (Kwargs.mk (some 2) (some (1/2)) (some 7) ()) (1/2))
    ∧ (∃ r, construct (Kwargs.mk (some 2) (some (1/2)) (some 7) ())
        (EnergyFn.timeIndep (fun x => x)) (EnergyFn.timeIndep (fun p => p))
        (fun _ : Fin 1 => 0) (fun _ => 0) (fun _ => 0) (fun _ => 0) (fun _ => 1)
        0 false = Except.ok r
        ∧ r.kwargsAfter = updateKwargs (Kwargs.mk (some 2) (some (1/2)) (some 7) ()) (1/2))
    ∧ (updateKwargs (Kwargs.mk (some 2) (some (1/2)) (some 7) ()) (1/2)).dt? = some (1/2)
    ∧ (updateKwargs (Kwargs.mk (some 2) (some (1/2)) (some 7) ()) (1/2)).dbeta? = some (1/2)
    ∧ (updateKwargs (Kwargs.mk (some 2) (some (1/2)) (some 7) ()) (1/2)).kT?
        = (Kwargs.mk (some 2) (some (1/2)) (some 7) ()).kT?
    ∧ (updateKwargs (Kwargs.mk (some 2) (some (1/2)) (some 7) ()) (1/2)).rest
        = (Kwargs.mk (some 2) (some (1/2)) (some 7) ()).rest :=
  C10_kwargs_update (Kwargs.mk (some 2) (some (1/2)) (some 7) ())
    (EnergyFn.timeIndep (fun x => x)) (EnergyFn.timeIndep (fun p => p))
    (fun _ : Fin 1 => 0) (fun _ => 0) (fun _ => 0) (fun _ => 0) (fun _ => 1) 0
    false (1/2) 1 (by norm_num [constructSchedule, resolveSchedule, pyRound])

end FastWigner
